import Mathlib

/-!
Verification of the remote command orchestration engine of the media-hub-setup
repository: SSH session registry, retry policy, streaming command execution,
and the one-click download-and-run provisioning pipeline.

The definitions below are a shallow embedding of the JavaScript source:
  * `retryLoop` / `retry` embed the `retry` helper of the provisioning scripts
    (bounded attempts, fixed delay, reconnect hook before each retry);
  * `CmdResult`, `streamEvents`, `streamCallbackCalls`,
    `executeCommandWithStream` embed `SSHService.executeCommandWithStream`;
  * `getSSHService`, `acquireService`, `disconnectRoute`,
    `disconnectConnection` embed the connection registry of `server/index.js`
    and `SSHService.disconnectConnection`;
  * `downloadAndRun` and its stage functions embed the
    `POST /api/setup/download-and-run` route, recording the ordered list of
    progress events written to the SSE stream and the ordered list of shell
    commands issued against the remote host;
  * `executeStreamRoute` embeds `POST /api/ssh/execute-stream`;
  * `execCommandCheckRemote` / `execCommandCheckLocal` embed the
    stderr/exit-code failure policies of the two `execCommandWithRetries`
    variants in the provisioning scripts.

A remote host is modelled as an environment `Env` mapping each issued command
string to either a thrown error (a rejected promise) or a `CmdResult`.
-/

/-- Result of one remote command: captured standard output, standard error,
and the numeric exit code (`ssh.execCommand` resolves with these fields). -/
structure CmdResult where
  stdout : String
  stderr : String
  code : Int
deriving Repr, DecidableEq

deriving instance DecidableEq for Except

/-- The remote host as seen by the engine: for each command string, either the
promise rejects with an error message or resolves with a `CmdResult`. -/
abbrev Env := String → Except String CmdResult

/-! ## Retry policy

Embedding of `retry(fn, retries)` from the provisioning scripts:

```js
async function retry(fn, retries = RETRY_LIMIT) {
  let attempts = 0;
  while (attempts < retries) {
    try { return await fn(); }
    catch (error) {
      attempts++;
      if (attempts >= retries) { throw error; }
      await reconnectIfNeeded();
      await new Promise(res => setTimeout(res, RETRY_DELAY_MS));
    }
  }
}
```

The operation is modelled as `fn : Nat → Except String α`, giving the outcome
of each attempt (attempt numbers start at 0).  `retryLoop` returns the overall
outcome together with the number of `fn` invocations and the number of
`reconnectIfNeeded` (recovery hook) invocations.  `RetryResult.undef` is the
JavaScript `undefined` returned when the `while` guard fails immediately
(`retries = 0`); the fuel argument equals `retries - attempts`, which is
exactly the number of loop iterations the `while` guard still allows. -/

/-- Outcome of a guarded operation: a value, a re-raised final failure, or the
implicit `undefined` when the loop body never runs. -/
inductive RetryResult (α : Type) where
  | ok (value : α)
  | err (message : String)
  | undef
deriving Repr, DecidableEq

/-- The retry limit configured in both provisioning scripts. -/
def RETRY_LIMIT : Nat := 5

/-- One `while` loop of `retry`: `attempts` is the current attempt counter,
`fuel = limit - attempts` counts the iterations still permitted by the loop
guard.  Returns (outcome, `fn` invocations, recovery-hook invocations). -/
def retryLoop {α : Type} (fn : Nat → Except String α) (limit : Nat) :
    Nat → Nat → RetryResult α × Nat × Nat
  | _, 0 => (.undef, 0, 0)
  | attempts, fuel + 1 =>
    match fn attempts with
    | .ok a => (.ok a, 1, 0)
    | .error e =>
      if attempts + 1 ≥ limit then
        (.err e, 1, 0)
      else
        match retryLoop fn limit (attempts + 1) fuel with
        | (r, fnCalls, hookCalls) => (r, fnCalls + 1, hookCalls + 1)

/-- Run `retry fn limit`: the guarded operation starting from attempt 0. -/
def retry {α : Type} (fn : Nat → Except String α) (limit : Nat) :
    RetryResult α × Nat × Nat :=
  retryLoop fn limit 0 limit

lemma retryLoop_always_fails {α : Type} (fn : Nat → Except String α)
    (msg : Nat → String) (hfail : ∀ n, fn n = Except.error (msg n))
    (limit : Nat) :
    ∀ fuel attempts, 1 ≤ fuel → attempts + fuel = limit →
      retryLoop fn limit attempts fuel
        = (RetryResult.err (msg (limit - 1)), fuel, fuel - 1) := by
  intro fuel
  induction fuel with
  | zero => omega
  | succ f ih =>
    intro attempts _ hsum
    rw [retryLoop, hfail attempts]
    by_cases hlast : attempts + 1 ≥ limit
    · have hf : f = 0 := by omega
      have ha : attempts = limit - 1 := by omega
      subst hf ha
      simp [hlast]
    · have hf1 : 1 ≤ f := by omega
      have hrec := ih (attempts + 1) hf1 (by omega)
      simp only [if_neg hlast, hrec]
      have : f - 1 + 1 = f := by omega
      simp [this]

/-- C2: `retry` with limit `N ≥ 1` and an operation failing on every attempt
invokes the operation exactly `N` times and the recovery hook exactly `N - 1`
times, then re-raises the failure of the final attempt. -/
theorem retry_exact_attempts {α : Type} (fn : Nat → Except String α)
    (msg : Nat → String) (limit : Nat) (hone : 1 ≤ limit)
    (hfail : ∀ n, fn n = Except.error (msg n)) :
    retry fn limit = (RetryResult.err (msg (limit - 1)), limit, limit - 1) :=
  retryLoop_always_fails fn msg hfail limit limit 0 hone (by omega)

/-- Witness for C2 at limit 3: the operation runs 3 times, the hook twice,
and the attempt-2 failure is re-raised. -/
theorem retry_exact_attempts_witness :
    retry (fun n => (Except.error ("boom " ++ toString n) : Except String String)) 3
      = (RetryResult.err ("boom " ++ toString 2), 3, 2) :=
  retry_exact_attempts _ (fun n => "boom " ++ toString n) 3 (by decide)
    (fun _ => rfl)

/-! ## Streaming command execution (`SSHService.executeCommandWithStream`)

```js
async executeCommandWithStream(command, options = {}) {
  const { cwd = null, onStdout = null, onStderr = null } = options;
  return new Promise((resolve, reject) => {
    this.ssh.execCommand(command, { cwd })
      .then(result => {
        if (onStdout && result.stdout) { onStdout(result.stdout); }
        if (onStderr && result.stderr) { onStderr(result.stderr); }
        resolve({ code: result.code });
      })
      .catch(error => { reject(error); });
  });
}
```

The callbacks fire only once the underlying `execCommand` promise has resolved
with the complete result; `streamCallbackCalls` records the callback
invocations in order as `(isStdoutCallback, chunk)` pairs. -/

/-- The ordered callback invocations performed by `executeCommandWithStream`
after the command resolved with `r`: the stdout callback (tagged `true`) with
the whole captured stdout when the callback was supplied and the text is
non-empty, then likewise the stderr callback (tagged `false`). -/
def streamCallbackCalls (hasOnStdout hasOnStderr : Bool) (r : CmdResult) :
    List (Bool × String) :=
  (if hasOnStdout && r.stdout != "" then [(true, r.stdout)] else []) ++
    (if hasOnStderr && r.stderr != "" then [(false, r.stderr)] else [])

/-- Behaviour of `executeCommandWithStream` on the outcome of
`ssh.execCommand`: a rejected
command rejects with no callback invocation; a resolved command performs the
callback invocations and resolves with the exit code only. -/
def executeCommandWithStream (hasOnStdout hasOnStderr : Bool) :
    Except String CmdResult → List (Bool × String) × Except String Int
  | .error e => ([], .error e)
  | .ok r => (streamCallbackCalls hasOnStdout hasOnStderr r, .ok r.code)

/-- C9: each stream callback is invoked at most once, only with the entire
accumulated text of its stream as a single chunk, and never when that stream's
accumulated output is empty; a rejected command invokes no callback at all
(so no callback ever fires before the command has fully completed). -/
theorem stream_callbacks_single_chunk (hasOnStdout hasOnStderr : Bool)
    (r : CmdResult) :
    ((streamCallbackCalls hasOnStdout hasOnStderr r).filter
        (fun c => c.1)).length ≤ 1 ∧
    ((streamCallbackCalls hasOnStdout hasOnStderr r).filter
        (fun c => !c.1)).length ≤ 1 ∧
    (∀ c ∈ streamCallbackCalls hasOnStdout hasOnStderr r,
        c.1 = true → c.2 = r.stdout) ∧
    (∀ c ∈ streamCallbackCalls hasOnStdout hasOnStderr r,
        c.1 = false → c.2 = r.stderr) ∧
    (r.stdout = "" →
        (streamCallbackCalls hasOnStdout hasOnStderr r).filter
          (fun c => c.1) = []) ∧
    (r.stderr = "" →
        (streamCallbackCalls hasOnStdout hasOnStderr r).filter
          (fun c => !c.1) = []) ∧
    (∀ e : String,
        (executeCommandWithStream hasOnStdout hasOnStderr (.error e)).1 = []) := by
  unfold streamCallbackCalls
  refine ⟨?_, ?_, ?_, ?_, ?_, ?_, fun e => rfl⟩ <;>
    (split <;> split <;> simp_all)

/-- Witness for C9 at a concrete resolved result with both streams non-empty
and both callbacks supplied. -/
theorem stream_callbacks_single_chunk_witness :
    ((streamCallbackCalls true true ⟨"out", "err", 0⟩).filter
        (fun c => c.1)).length ≤ 1 ∧
    ((streamCallbackCalls true true ⟨"out", "err", 0⟩).filter
        (fun c => !c.1)).length ≤ 1 :=
  ⟨(stream_callbacks_single_chunk true true ⟨"out", "err", 0⟩).1,
   (stream_callbacks_single_chunk true true ⟨"out", "err", 0⟩).2.1⟩

/-! ## Failure policy of `execCommandWithRetries`

The repository contains two variants of `execCommandWithRetries`, embedding
the check each applies to a resolved command result.

Remote orchestration script:
```js
const result = await ssh.execCommand(command, { cwd });
if (result.stderr) { throw new Error(result.stderr); }
return result.stdout;
```

Local `hub-setup.js` script:
```js
result = await $`sh -c ${command}`.nothrow();
if (result.stderr && result.exitCode !== 0) { throw new Error(result.stderr); }
return result.stdout;
```
-/

/-- Failure policy of the remote orchestration script: any non-empty stderr is
thrown as a failure, regardless of the exit code. -/
def execCommandCheckRemote (r : CmdResult) : Except String String :=
  if r.stderr != "" then .error r.stderr else .ok r.stdout

/-- Failure policy of the local `hub-setup.js` script: fails only when stderr
is non-empty and the exit code is non-zero. -/
def execCommandCheckLocal (r : CmdResult) : Except String String :=
  if r.stderr != "" && r.code != 0 then .error r.stderr else .ok r.stdout

/-- Counterexample to C4: the remote script's `execCommandWithRetries` treats
a command with exit code 0 as failed solely because its stderr is non-empty,
so the exit code is not the authoritative success signal there. -/
theorem remote_stderr_zero_exit_fails :
    execCommandCheckRemote ⟨"", "warning: config deprecated", 0⟩
      = Except.error "warning: config deprecated" := rfl

/-- C4 as amended: in the local `hub-setup.js` script the exit code is
authoritative: any result with exit code 0 succeeds no matter what stderr
holds; the remote orchestration script instead throws on any non-empty
stderr even with exit code 0. -/
theorem local_exit_code_authoritative (r : CmdResult) (h : r.code = 0) :
    execCommandCheckLocal r = Except.ok r.stdout := by
  unfold execCommandCheckLocal
  simp [h]

/-- Witness for the amended C4 at a zero-exit result with non-empty stderr. -/
theorem local_exit_code_authoritative_witness :
    execCommandCheckLocal ⟨"ok", "warning: config deprecated", 0⟩
      = Except.ok "ok" :=
  local_exit_code_authoritative ⟨"ok", "warning: config deprecated", 0⟩ rfl

/-! ## Session registry (`server/index.js` `activeConnections` and
`SSHService.connections`)

Sessions are identified by a numeric identity standing for the JavaScript
object identity of the stored `SSHService` / `NodeSSH` instance; registries
are association lists from connection keys (`ip + ":" + username`) to those
identities.  Whether a stored session's transport is currently connected
(its `isConnected()` liveness probe) is supplied as `connected : Nat → Bool`. -/

/-- Lookup in a JavaScript `Map`-like association list (first matching key). -/
def lookupKey (k : String) : List (String × Nat) → Option Nat
  | [] => none
  | (k2, v) :: rest => if k2 == k then some v else lookupKey k rest

/-- JavaScript `Map.delete`: remove the entry with the given key. -/
def eraseKey (k : String) : List (String × Nat) → List (String × Nat)
  | [] => []
  | (k2, v) :: rest => if k2 == k then rest else (k2, v) :: eraseKey k rest

/-- The server's registry: the module-level `activeConnections` map plus a
counter supplying the object identity of the next `new SSHService()`. -/
structure ServerState where
  activeConnections : List (String × Nat)
  nextId : Nat
deriving Repr, DecidableEq

/-- The server's `getSSHService(ip, username, password)`:

```js
const key = `${ip}:${username}`;
if (!activeConnections.has(key)) {
  const sshService = new SSHService();
  activeConnections.set(key, sshService);
}
return activeConnections.get(key);
```

The password argument is unused by the source function. -/
def getSSHService (st : ServerState) (ip username : String) :
    Nat × ServerState :=
  match lookupKey (ip ++ ":" ++ username) st.activeConnections with
  | some id => (id, st)
  | none =>
      (st.nextId,
       ⟨st.activeConnections ++ [(ip ++ ":" ++ username, st.nextId)],
        st.nextId + 1⟩)

/-- The acquisition prelude every route performs:

```js
const sshService = getSSHService(ip, username, password);
if (!sshService.isConnected()) {
  await sshService.connect(ip, username, password);
}
```

Returns the session identity, the registry afterwards, and the list of
passwords with which a transport authentication (`connect`) was issued. -/
def acquireService (st : ServerState) (connected : Nat → Bool)
    (ip username password : String) : Nat × ServerState × List String :=
  match getSSHService st ip username with
  | (id, st1) => if connected id then (id, st1, []) else (id, st1, [password])

lemma lookupKey_append_none (k : String) (v : Nat) (l : List (String × Nat))
    (h : lookupKey k l = none) : lookupKey k (l ++ [(k, v)]) = some v := by
  induction l with
  | nil => simp [lookupKey]
  | cons p rest ih =>
    rw [lookupKey] at h
    by_cases hk : p.1 == k
    · simp [hk] at h
    · rw [List.cons_append, lookupKey]
      simp only [hk, if_neg]
      exact ih (by simpa [hk] using h)

lemma lookupKey_getSSHService (st : ServerState) (ip username : String) :
    lookupKey (ip ++ ":" ++ username)
        (getSSHService st ip username).2.activeConnections
      = some (getSSHService st ip username).1 := by
  unfold getSSHService
  cases h : lookupKey (ip ++ ":" ++ username) st.activeConnections with
  | some id => simp [h]
  | none => simpa using lookupKey_append_none _ _ _ h

/-- C5: acquiring the service for the same `(host, principal)` key twice in
succession while the stored session's liveness probe reports healthy returns
the same session identity both times, leaves the registry unchanged, and
issues no authentication on the second call. -/
theorem getOrCreate_healthy_idempotent (st : ServerState)
    (connected : Nat → Bool) (ip username password : String)
    (h : connected (acquireService st connected ip username password).1 = true) :
    acquireService (acquireService st connected ip username password).2.1
        connected ip username password
      = ((acquireService st connected ip username password).1,
         (acquireService st connected ip username password).2.1, []) := by
  rcases hg : getSSHService st ip username with ⟨id1, st1⟩
  have hl : lookupKey (ip ++ ":" ++ username) st1.activeConnections
      = some id1 := by
    have hll := lookupKey_getSSHService st ip username
    rw [hg] at hll
    exact hll
  have hid : (acquireService st connected ip username password).1 = id1 := by
    unfold acquireService
    rw [hg]
    split
    split <;> simp_all
  have hst : (acquireService st connected ip username password).2.1 = st1 := by
    unfold acquireService
    rw [hg]
    split
    split <;> simp_all
  rw [hid] at h
  rw [hid, hst]
  unfold acquireService getSSHService
  rw [hl]
  simp [h]

/-- Witness for C5: empty registry, every transport healthy once created. -/
theorem getOrCreate_healthy_idempotent_witness :
    acquireService
        (acquireService ⟨[], 0⟩ (fun _ => true) "10.1.4.215" "root" "pw").2.1
        (fun _ => true) "10.1.4.215" "root" "pw"
      = ((acquireService ⟨[], 0⟩ (fun _ => true) "10.1.4.215" "root" "pw").1,
         (acquireService ⟨[], 0⟩ (fun _ => true) "10.1.4.215" "root" "pw").2.1,
         []) :=
  getOrCreate_healthy_idempotent ⟨[], 0⟩ (fun _ => true) "10.1.4.215" "root"
    "pw" rfl

/-- C10: when a healthy session already exists for the key, the supplied
credential does not influence the result: requests differing only in the
password observe the same session, the same registry, and issue no
authentication at all (in particular none with the new password). -/
theorem credential_ignored_for_existing_session (st : ServerState)
    (connected : Nat → Bool) (ip username password1 password2 : String)
    (id : Nat)
    (hlook : lookupKey (ip ++ ":" ++ username) st.activeConnections = some id)
    (hhealthy : connected id = true) :
    acquireService st connected ip username password1 = (id, st, []) ∧
    acquireService st connected ip username password1
      = acquireService st connected ip username password2 := by
  unfold acquireService getSSHService
  rw [hlook]
  simp [hhealthy]

/-- Witness for C10: a registry holding one healthy session; two different
passwords observe it identically with no authentication. -/
theorem credential_ignored_for_existing_session_witness :
    acquireService ⟨[("10.1.4.215:root", 7)], 8⟩ (fun n => n == 7)
        "10.1.4.215" "root" "keus123"
      = (7, ⟨[("10.1.4.215:root", 7)], 8⟩, []) ∧
    acquireService ⟨[("10.1.4.215:root", 7)], 8⟩ (fun n => n == 7)
        "10.1.4.215" "root" "keus123"
      = acquireService ⟨[("10.1.4.215:root", 7)], 8⟩ (fun n => n == 7)
          "10.1.4.215" "root" "other-password" :=
  credential_ignored_for_existing_session ⟨[("10.1.4.215:root", 7)], 8⟩
    (fun n => n == 7) "10.1.4.215" "root" "keus123" "other-password" 7
    (by decide) (by decide)

/-! ## Disconnect

`POST /api/ssh/disconnect` (`server/index.js`):

```js
const key = `${ip}:${username}`;
if (activeConnections.has(key)) {
  const sshService = activeConnections.get(key);
  await sshService.disconnect();        // disposes only if isConnected()
  activeConnections.delete(key);
}
```

`SSHService.disconnectConnection(ip, username)`:

```js
const key = this._getConnectionKey(ip, username);
const ssh = this.connections.get(key);
if (ssh && ssh.isConnected()) {
  await ssh.dispose();
  this.connections.delete(key);
}
```

Both return the registry afterwards together with the list of session
identities whose transport was disposed. -/

/-- The disconnect route over the server registry. -/
def disconnectRoute (st : ServerState) (connected : Nat → Bool)
    (ip username : String) : ServerState × List Nat :=
  match lookupKey (ip ++ ":" ++ username) st.activeConnections with
  | none => (st, [])
  | some id =>
      (⟨eraseKey (ip ++ ":" ++ username) st.activeConnections, st.nextId⟩,
       if connected id then [id] else [])

/-- Embedding of `SSHService.disconnectConnection` over the service's
internal map. -/
def disconnectConnection (conns : List (String × Nat)) (connected : Nat → Bool)
    (ip username : String) : List (String × Nat) × List Nat :=
  match lookupKey (ip ++ ":" ++ username) conns with
  | none => (conns, [])
  | some id =>
      if connected id then (eraseKey (ip ++ ":" ++ username) conns, [id])
      else (conns, [])

lemma lookupKey_eq_none_of_not_mem (k : String) (l : List (String × Nat))
    (h : k ∉ l.map Prod.fst) : lookupKey k l = none := by
  induction l with
  | nil => rfl
  | cons p rest ih =>
    rw [lookupKey]
    have hne : ¬(p.1 == k) = true := by
      simp only [List.map_cons, List.mem_cons] at h
      simp only [beq_iff_eq]
      intro hk
      exact h (Or.inl hk.symm)
    rw [if_neg hne]
    exact ih (by
      simp only [List.map_cons, List.mem_cons] at h
      exact fun hm => h (Or.inr hm))

lemma lookupKey_eraseKey (k : String) (l : List (String × Nat))
    (hnodup : (l.map Prod.fst).Nodup) : lookupKey k (eraseKey k l) = none := by
  induction l with
  | nil => rfl
  | cons p rest ih =>
    rw [eraseKey]
    simp only [List.map_cons, List.nodup_cons] at hnodup
    by_cases hk : (p.1 == k) = true
    · rw [if_pos hk]
      have : k ∉ rest.map Prod.fst := by
        have hpk : p.1 = k := by simpa using hk
        rw [← hpk]
        exact hnodup.1
      exact lookupKey_eq_none_of_not_mem k rest this
    · rw [if_neg hk, lookupKey, if_neg hk]
      exact ih hnodup.2

/-- Counterexample to C8: `SSHService.disconnectConnection` on a key whose
entry exists but whose transport is no longer connected leaves the entry in
the registry instead of removing it. -/
theorem disconnectConnection_dead_entry_kept :
    lookupKey "10.1.4.215:root" [("10.1.4.215:root", 0)] = some 0 ∧
    disconnectConnection [("10.1.4.215:root", 0)] (fun _ => false)
        "10.1.4.215" "root"
      = ([("10.1.4.215:root", 0)], []) := by
  constructor
  · rfl
  · rfl

/-- C8 as amended: for the HTTP disconnect route, an absent key is a no-op
(registry unchanged, nothing disposed) and a present key is always removed,
with its transport disposed exactly when it is still connected; for
`SSHService.disconnectConnection`, a present key is removed and disposed when
its transport is still connected, but an existing entry whose transport is
already dead is left in the map untouched. -/
theorem disconnect_registry_behavior (st : ServerState)
    (conns : List (String × Nat)) (connected : Nat → Bool)
    (ip username : String) (id : Nat)
    (hnodupSt : (st.activeConnections.map Prod.fst).Nodup)
    (hnodupConns : (conns.map Prod.fst).Nodup) :
    (lookupKey (ip ++ ":" ++ username) st.activeConnections = none →
      disconnectRoute st connected ip username = (st, [])) ∧
    (lookupKey (ip ++ ":" ++ username) st.activeConnections = some id →
      lookupKey (ip ++ ":" ++ username)
          (disconnectRoute st connected ip username).1.activeConnections = none ∧
      (disconnectRoute st connected ip username).2
        = (if connected id then [id] else [])) ∧
    (lookupKey (ip ++ ":" ++ username) conns = some id → connected id = true →
      lookupKey (ip ++ ":" ++ username)
          (disconnectConnection conns connected ip username).1 = none ∧
      (disconnectConnection conns connected ip username).2 = [id]) ∧
    (lookupKey (ip ++ ":" ++ username) conns = some id → connected id = false →
      disconnectConnection conns connected ip username = (conns, [])) := by
  refine ⟨?_, ?_, ?_, ?_⟩
  · intro hnone
    unfold disconnectRoute
    rw [hnone]
  · intro hsome
    unfold disconnectRoute
    rw [hsome]
    exact ⟨lookupKey_eraseKey _ _ hnodupSt, rfl⟩
  · intro hsome hconn
    unfold disconnectConnection
    rw [hsome]
    simp [hconn, lookupKey_eraseKey _ _ hnodupConns]
  · intro hsome hconn
    unfold disconnectConnection
    rw [hsome]
    simp [hconn]

/-- Witness for the amended C8 on a one-entry registry with a live transport:
the route removes and disposes the entry. -/
theorem disconnect_registry_behavior_witness :
    lookupKey "10.1.4.215:root"
        (disconnectRoute ⟨[("10.1.4.215:root", 3)], 4⟩ (fun _ => true)
            "10.1.4.215" "root").1.activeConnections = none ∧
    (disconnectRoute ⟨[("10.1.4.215:root", 3)], 4⟩ (fun _ => true)
        "10.1.4.215" "root").2 = (if (fun _ => true : Nat → Bool) 3 then [3] else []) :=
  (disconnect_registry_behavior ⟨[("10.1.4.215:root", 3)], 4⟩
      [("10.1.4.215:root", 3)] (fun _ => true) "10.1.4.215" "root" 3
      (by decide) (by decide)).2.1 (by decide)

/-! ## Progress events and command builders -/

/-- A Progress Event, one JSON record written to the SSE stream.  The
constructors mirror the `type` field of the source's records. -/
inductive Event where
  | connected (message : String)
  | info (message : String)
  | step (n : Nat) (message : String)
  | stdout (data : String)
  | stderr (data : String)
  | success (message : String)
  | error (message : String)
  | done (message : String)
deriving Repr, DecidableEq

/-- From `github-service.js`: `getBranchArchiveUrl`. -/
def getBranchArchiveUrl (owner repo branch : String) : String :=
  "https://github.com/" ++ owner ++ "/" ++ repo ++ "/archive/refs/heads/"
    ++ branch ++ ".tar.gz"

/-- From `github-service.js`: `generateCurlCommand`. -/
def generateCurlCommand (url outputPath : String) : String :=
  "curl -L \"" ++ url ++ "\" -o \"" ++ outputPath ++ "\""

/-- From `github-service.js`: `generateWgetCommand`. -/
def generateWgetCommand (url outputPath : String) : String :=
  "wget -O \"" ++ outputPath ++ "\" \"" ++ url ++ "\""

/-- From `github-service.js`: `generateDownloadCommand` — curl when asked for curl,
wget when asked for wget, wget otherwise. -/
def generateDownloadCommand (url outputPath tool : String) : String :=
  if tool == "curl" then generateCurlCommand url outputPath
  else if tool == "wget" then generateWgetCommand url outputPath
  else generateWgetCommand url outputPath

/-- From `github-service.js`: `generateExtractCommand`. -/
def generateExtractCommand (archivePath extractTo : String) : String :=
  "tar -xzf \"" ++ archivePath ++ "\" -C \"" ++ extractTo ++ "\""

/-- From `github-service.js`: `generateMkdirCommand`. -/
def generateMkdirCommand (dirPath : String) : String :=
  "mkdir -p \"" ++ dirPath ++ "\""

/-- The inline file-existence probe used by the routes:
`test -f "${path}" && echo "exists"`. -/
def testFileCmd (p : String) : String :=
  "test -f \"" ++ p ++ "\" && echo \"exists\""

/-- Whether `pat` is a prefix of `cs`, over character lists. -/
def charsStartWith : List Char → List Char → Bool
  | _, [] => true
  | [], _ :: _ => false
  | c :: cs, p :: ps => c == p && charsStartWith cs ps

/-- Whether `pat` occurs as a contiguous substring of `cs`. -/
def charsContain : List Char → List Char → Bool
  | [], pat => pat.isEmpty
  | c :: rest, pat => charsStartWith (c :: rest) pat || charsContain rest pat

/-- JavaScript `String.prototype.includes`: substring occurrence. -/
def jsIncludes (s pat : String) : Bool :=
  charsContain s.data pat.data

/-- JavaScript truthiness of `s.trim()`: the trimmed string is non-empty,
i.e. `s` holds some non-whitespace character. -/
def trimNonEmpty (s : String) : Bool :=
  s.data.any (fun c => !c.isWhitespace)

/-- Embedding of `.catch(() => ({ stdout: '' }))` followed by reading
`.stdout`: the
stdout of a resolved command, the empty string for a rejected one. -/
def catchStdout : Except String CmdResult → String
  | .error _ => ""
  | .ok r => r.stdout

/-- The `stdout`/`stderr` progress events written for one streamed command:
`executeCommandWithStream` fires each supplied callback at most once with the
full captured text, and each route's callbacks write one event per chunk. -/
def streamEvents (r : CmdResult) : List Event :=
  (if r.stdout != "" then [Event.stdout r.stdout] else []) ++
    (if r.stderr != "" then [Event.stderr r.stderr] else [])

/-- The route helper `detectDownloadTool`: probe `which curl` (errors
swallowed by `.catch`),
then `which wget`; a tool is available when its probe resolved with exit code
0 and non-blank stdout.  Returns the chosen tool and the probe commands
issued. -/
def detectDownloadTool (env : Env) : Option String × List String :=
  if (match env "which curl" with
      | .ok r => r.code == 0 && trimNonEmpty r.stdout
      | .error _ => false) then
    (some "curl", ["which curl"])
  else if (match env "which wget" with
      | .ok r => r.code == 0 && trimNonEmpty r.stdout
      | .error _ => false) then
    (some "wget", ["which curl", "which wget"])
  else
    (none, ["which curl", "which wget"])

/-! ## The one-click pipeline (`POST /api/setup/download-and-run`)

The route body is a single `try`/`catch`: each `await`ed stage either
resolves, or rejects and control jumps to the `catch`, which writes exactly
one `error` event and ends the stream.  The embedding records, in order, the
progress events written to the stream and the shell commands issued against
the remote host.  Note that `executeCommandWithStream` resolves with the exit
code but never rejects on a non-zero exit code, and the route does not
inspect the codes it returns; only a rejected promise or the explicit
file-existence check can abort the pipeline. -/

/-- Accumulated observable behaviour of a pipeline run: the ordered progress
events written to the SSE stream and the ordered commands issued remotely. -/
structure RunResult where
  events : List Event
  cmds : List String
deriving Repr, DecidableEq

/-- The `extractedDir` computed in step 4: `${hubBasePath}/${repoName}-${repoBranch}`. -/
def extractedDirOf (hubBasePath repoName repoBranch : String) : String :=
  hubBasePath ++ "/" ++ repoName ++ "-" ++ repoBranch

/-- The archive path `${hubBasePath}/repo.tar.gz`. -/
def archivePathOf (hubBasePath : String) : String :=
  hubBasePath ++ "/repo.tar.gz"

/-- Step 4's install command: `cd "${extractedDir}" && npm install`. -/
def npmInstallCmd (extractedDir : String) : String :=
  "cd \"" ++ extractedDir ++ "\" && npm install"

/-- Step 5's run command: `cd "${extractedDir}" && node hub-setup.js`. -/
def setupRunCmd (extractedDir : String) : String :=
  "cd \"" ++ extractedDir ++ "\" && node hub-setup.js"

/-- Step 5: emit the `step` event, stream `node hub-setup.js`; a rejection
becomes the final `error` event, success the final `success` event. -/
def stageSetup (env : Env) (extractedDir : String) (acc : RunResult) :
    RunResult :=
  match env (setupRunCmd extractedDir) with
  | .error e =>
      ⟨acc.events ++ [Event.step 5 "Running hub-setup.js..."] ++ [Event.error e],
       acc.cmds ++ [setupRunCmd extractedDir]⟩
  | .ok r =>
      ⟨acc.events ++ [Event.step 5 "Running hub-setup.js..."] ++ streamEvents r
          ++ [Event.success "Setup completed successfully!"],
       acc.cmds ++ [setupRunCmd extractedDir]⟩

/-- Step 4: emit the `step` event, probe for `package.json` (rejections
swallowed); when present, stream `npm install` (a rejection becomes the final
`error` event), otherwise log the skip; then proceed to step 5. -/
def stageInstall (env : Env) (extractedDir : String) (acc : RunResult) :
    RunResult :=
  if jsIncludes
      (catchStdout (env (testFileCmd (extractedDir ++ "/package.json"))))
      "exists" then
    match env (npmInstallCmd extractedDir) with
    | .error e =>
        ⟨acc.events ++ [Event.step 4 "Installing dependencies...",
            Event.info "Found package.json, installing dependencies..."]
            ++ [Event.error e],
         acc.cmds ++ [testFileCmd (extractedDir ++ "/package.json"),
            npmInstallCmd extractedDir]⟩
    | .ok r =>
        stageSetup env extractedDir
          ⟨acc.events ++ [Event.step 4 "Installing dependencies...",
              Event.info "Found package.json, installing dependencies..."]
              ++ streamEvents r
              ++ [Event.info "Dependencies installed successfully"],
           acc.cmds ++ [testFileCmd (extractedDir ++ "/package.json"),
              npmInstallCmd extractedDir]⟩
  else
    stageSetup env extractedDir
      ⟨acc.events ++ [Event.step 4 "Installing dependencies...",
          Event.info "No package.json found, skipping dependency installation"],
       acc.cmds ++ [testFileCmd (extractedDir ++ "/package.json")]⟩

/-- Step 3: emit the `step` event and stream the tar extraction; a rejection
becomes the final `error` event; the exit code of the extraction is not
inspected, so on any resolution the pipeline proceeds to step 4. -/
def stageExtract (env : Env) (repoName repoBranch hubBasePath : String)
    (acc : RunResult) : RunResult :=
  match env (generateExtractCommand (archivePathOf hubBasePath) hubBasePath) with
  | .error e =>
      ⟨acc.events ++ [Event.step 3 "Extracting archive..."] ++ [Event.error e],
       acc.cmds ++ [generateExtractCommand (archivePathOf hubBasePath) hubBasePath]⟩
  | .ok r =>
      stageInstall env (extractedDirOf hubBasePath repoName repoBranch)
        ⟨acc.events ++ [Event.step 3 "Extracting archive..."] ++ streamEvents r,
         acc.cmds ++ [generateExtractCommand (archivePathOf hubBasePath) hubBasePath]⟩

/-- Step 2 (second half): stream the download command, then verify the
archive exists on the hub (`test -f`, rejections giving empty stdout); a
missing file throws `Download failed - archive file not found after
download`, otherwise proceed to step 3. -/
def stageDownload (env : Env)
    (tool repoOwner repoName repoBranch hubBasePath : String)
    (acc : RunResult) : RunResult :=
  match env (generateDownloadCommand
      (getBranchArchiveUrl repoOwner repoName repoBranch)
      (archivePathOf hubBasePath) tool) with
  | .error e =>
      ⟨acc.events ++ [Event.info ("Using " ++ tool ++ " for download..."),
          Event.step 2 "Downloading repository..."] ++ [Event.error e],
       acc.cmds ++ [generateDownloadCommand
          (getBranchArchiveUrl repoOwner repoName repoBranch)
          (archivePathOf hubBasePath) tool]⟩
  | .ok r =>
      if jsIncludes (catchStdout (env (testFileCmd (archivePathOf hubBasePath))))
          "exists" then
        stageExtract env repoName repoBranch hubBasePath
          ⟨acc.events ++ [Event.info ("Using " ++ tool ++ " for download..."),
              Event.step 2 "Downloading repository..."] ++ streamEvents r,
           acc.cmds ++ [generateDownloadCommand
              (getBranchArchiveUrl repoOwner repoName repoBranch)
              (archivePathOf hubBasePath) tool,
              testFileCmd (archivePathOf hubBasePath)]⟩
      else
        ⟨acc.events ++ [Event.info ("Using " ++ tool ++ " for download..."),
            Event.step 2 "Downloading repository..."] ++ streamEvents r
            ++ [Event.error "Download failed - archive file not found after download"],
         acc.cmds ++ [generateDownloadCommand
            (getBranchArchiveUrl repoOwner repoName repoBranch)
            (archivePathOf hubBasePath) tool,
            testFileCmd (archivePathOf hubBasePath)]⟩

/-- Step 2 (first half): emit the `step` event and detect the download tool;
when neither tool is available the route throws, producing the final `error`
event, otherwise proceed to the download. -/
def stageDetect (env : Env) (repoOwner repoName repoBranch hubBasePath : String)
    (acc : RunResult) : RunResult :=
  match detectDownloadTool env with
  | (none, probeCmds) =>
      ⟨acc.events ++ [Event.step 2 "Checking for download tools..."]
          ++ [Event.error "Neither curl nor wget is available on the hub. Please install one of them."],
       acc.cmds ++ probeCmds⟩
  | (some tool, probeCmds) =>
      stageDownload env tool repoOwner repoName repoBranch hubBasePath
        ⟨acc.events ++ [Event.step 2 "Checking for download tools..."],
         acc.cmds ++ probeCmds⟩

/-- The whole `POST /api/setup/download-and-run` pipeline body, from the
first `step` event on: create the target directory (a rejection becomes the
final `error` event; the mkdir result is otherwise ignored), then steps 2-5. -/
def downloadAndRun (env : Env)
    (repoOwner repoName repoBranch hubBasePath : String) : RunResult :=
  match env (generateMkdirCommand hubBasePath) with
  | .error e =>
      ⟨[Event.step 1 "Creating directory..."] ++ [Event.error e],
       [generateMkdirCommand hubBasePath]⟩
  | .ok _ =>
      stageDetect env repoOwner repoName repoBranch hubBasePath
        ⟨[Event.step 1 "Creating directory..."],
         [generateMkdirCommand hubBasePath]⟩

/-- The `POST /api/ssh/execute-stream` event stream: a `connected` event,
then the streamed chunks, then `done` on resolution or `error` on
rejection. -/
def executeStreamRoute (env : Env) (command : String) : List Event :=
  Event.connected "Connected to hub" ::
    match env command with
    | .ok r => streamEvents r ++ [Event.done "Command completed"]
    | .error e => [Event.error e]

/-- Whether an event is an `error` event. -/
def isErrorEvent : Event → Bool
  | .error _ => true
  | _ => false

/-- Number of `error` events in a run's event sequence. -/
def errorCount (evs : List Event) : Nat :=
  (evs.filter isErrorEvent).length

@[simp] lemma errorCount_nil : errorCount [] = 0 := rfl

@[simp] lemma errorCount_cons (e : Event) (l : List Event) :
    errorCount (e :: l) = (if isErrorEvent e then 1 else 0) + errorCount l := by
  unfold errorCount
  rw [List.filter_cons]
  split <;> simp [List.length_cons, Nat.add_comm]

@[simp] lemma errorCount_append (l1 l2 : List Event) :
    errorCount (l1 ++ l2) = errorCount l1 + errorCount l2 := by
  unfold errorCount
  rw [List.filter_append, List.length_append]

@[simp] lemma errorCount_streamEvents (r : CmdResult) :
    errorCount (streamEvents r) = 0 := by
  unfold streamEvents
  split <;> split <;> simp [errorCount, List.filter, isErrorEvent]

/-- Concrete pipeline environment for the C1 counterexample: every command
resolves with exit code 0 and stdout `exists`, except the tar extraction,
which resolves with exit code 2 and a tar error on stderr. -/
def envC1 : Env := fun cmd =>
  if cmd == generateExtractCommand "/data/hub-setup/repo.tar.gz" "/data/hub-setup" then
    .ok ⟨"", "tar: Error is not recoverable: exiting now", 2⟩
  else
    .ok ⟨"exists", "", 0⟩

/-- Counterexample to C1: in this run the `extract-archive` stage's command
exits with the non-zero code 2, yet the pipeline still issues the
`install-dependencies` and `execute-setup-script` commands, emits no `error`
event and ends in `success` — a non-zero exit code of a streamed stage
command does not move the pipeline to the failed state. -/
theorem extract_nonzero_exit_continues :
    envC1 (generateExtractCommand "/data/hub-setup/repo.tar.gz" "/data/hub-setup")
      = Except.ok ⟨"", "tar: Error is not recoverable: exiting now", 2⟩ ∧
    ((2 : Int) = 0 → False) ∧
    npmInstallCmd "/data/hub-setup/media-hub-setup-main"
      ∈ (downloadAndRun envC1 "rahul-keus" "media-hub-setup" "main"
          "/data/hub-setup").cmds ∧
    setupRunCmd "/data/hub-setup/media-hub-setup-main"
      ∈ (downloadAndRun envC1 "rahul-keus" "media-hub-setup" "main"
          "/data/hub-setup").cmds ∧
    errorCount (downloadAndRun envC1 "rahul-keus" "media-hub-setup" "main"
        "/data/hub-setup").events = 0 ∧
    (downloadAndRun envC1 "rahul-keus" "media-hub-setup" "main"
        "/data/hub-setup").events.getLast?
      = some (Event.success "Setup completed successfully!") := by
  decide

/-- C1 as amended: a stage failure aborts the pipeline only when the stage's
awaited promise rejects (for example a connectivity error after the connect
retries are exhausted) or the explicit download file-existence check fails.
When the `extract-archive` command rejects, the run issues no command of the
`install-dependencies` or `execute-setup-script` stages — the command trace
ends at the extract command — and emits exactly one `error` event, carrying
the failure message, as its final event.  (A streamed command that merely
exits non-zero does not abort the pipeline; see the counterexample.) -/
theorem thrown_failure_fail_fast (env : Env)
    (repoOwner repoName repoBranch hubBasePath tool : String)
    (probeCmds : List String) (rmk rdl rchk : CmdResult) (msg : String)
    (hmk : env (generateMkdirCommand hubBasePath) = .ok rmk)
    (hdet : detectDownloadTool env = (some tool, probeCmds))
    (hdl : env (generateDownloadCommand
        (getBranchArchiveUrl repoOwner repoName repoBranch)
        (archivePathOf hubBasePath) tool) = .ok rdl)
    (hchk : env (testFileCmd (archivePathOf hubBasePath)) = .ok rchk)
    (hfound : jsIncludes rchk.stdout "exists" = true)
    (hex : env (generateExtractCommand (archivePathOf hubBasePath) hubBasePath)
        = .error msg) :
    (downloadAndRun env repoOwner repoName repoBranch hubBasePath).cmds
      = [generateMkdirCommand hubBasePath] ++ probeCmds
          ++ [generateDownloadCommand
                (getBranchArchiveUrl repoOwner repoName repoBranch)
                (archivePathOf hubBasePath) tool,
              testFileCmd (archivePathOf hubBasePath),
              generateExtractCommand (archivePathOf hubBasePath) hubBasePath] ∧
    (downloadAndRun env repoOwner repoName repoBranch hubBasePath).events
      = [Event.step 1 "Creating directory...",
         Event.step 2 "Checking for download tools...",
         Event.info ("Using " ++ tool ++ " for download..."),
         Event.step 2 "Downloading repository..."]
          ++ streamEvents rdl
          ++ [Event.step 3 "Extracting archive...", Event.error msg] ∧
    errorCount
        (downloadAndRun env repoOwner repoName repoBranch hubBasePath).events
      = 1 := by
  unfold downloadAndRun stageDetect stageDownload stageExtract
  simp only [hmk, hdet, hdl, hchk, hex, catchStdout, hfound, if_true]
  simp [isErrorEvent]

/-- Concrete environment for the amended C1 witness: the tar extraction
rejects (connection lost), everything else resolves with stdout `exists`. -/
def envExtractThrows : Env := fun cmd =>
  if cmd == generateExtractCommand "/data/hub-setup/repo.tar.gz" "/data/hub-setup" then
    .error "Connection lost"
  else
    .ok ⟨"exists", "", 0⟩

/-- Witness for the amended C1: with a rejecting extraction, exactly one
`error` event is emitted and the command trace stops at the extract
command. -/
theorem thrown_failure_fail_fast_witness :
    errorCount (downloadAndRun envExtractThrows "rahul-keus" "media-hub-setup"
        "main" "/data/hub-setup").events = 1 ∧
    (downloadAndRun envExtractThrows "rahul-keus" "media-hub-setup" "main"
        "/data/hub-setup").cmds
      = [generateMkdirCommand "/data/hub-setup"] ++ ["which curl"]
          ++ [generateDownloadCommand
                (getBranchArchiveUrl "rahul-keus" "media-hub-setup" "main")
                (archivePathOf "/data/hub-setup") "curl",
              testFileCmd (archivePathOf "/data/hub-setup"),
              generateExtractCommand (archivePathOf "/data/hub-setup")
                "/data/hub-setup"] :=
  ⟨(thrown_failure_fail_fast envExtractThrows "rahul-keus" "media-hub-setup"
      "main" "/data/hub-setup" "curl" ["which curl"] ⟨"exists", "", 0⟩
      ⟨"exists", "", 0⟩ ⟨"exists", "", 0⟩ "Connection lost" (by decide)
      (by decide) (by decide) (by decide) (by decide) (by decide)).2.2,
   (thrown_failure_fail_fast envExtractThrows "rahul-keus" "media-hub-setup"
      "main" "/data/hub-setup" "curl" ["which curl"] ⟨"exists", "", 0⟩
      ⟨"exists", "", 0⟩ ⟨"exists", "", 0⟩ "Connection lost" (by decide)
      (by decide) (by decide) (by decide) (by decide) (by decide)).1⟩

/-- C3: whatever the download command's result — in particular with exit
code 0 — the pipeline issues the separate `test -f` existence check on the
expected archive path right after the download, and when that check's stdout
does not report the file, the run ends with the `error` event
`Download failed - archive file not found after download` (and exactly one
`error` event overall), issuing no further command. -/
theorem download_missing_file_fails (env : Env)
    (repoOwner repoName repoBranch hubBasePath tool : String)
    (probeCmds : List String) (rmk rdl rchk : CmdResult)
    (hmk : env (generateMkdirCommand hubBasePath) = .ok rmk)
    (hdet : detectDownloadTool env = (some tool, probeCmds))
    (hdl : env (generateDownloadCommand
        (getBranchArchiveUrl repoOwner repoName repoBranch)
        (archivePathOf hubBasePath) tool) = .ok rdl)
    (_hcode : rdl.code = 0)
    (hchk : env (testFileCmd (archivePathOf hubBasePath)) = .ok rchk)
    (hmissing : jsIncludes rchk.stdout "exists" = false) :
    (downloadAndRun env repoOwner repoName repoBranch hubBasePath).cmds
      = [generateMkdirCommand hubBasePath] ++ probeCmds
          ++ [generateDownloadCommand
                (getBranchArchiveUrl repoOwner repoName repoBranch)
                (archivePathOf hubBasePath) tool,
              testFileCmd (archivePathOf hubBasePath)] ∧
    (downloadAndRun env repoOwner repoName repoBranch hubBasePath).events
      = [Event.step 1 "Creating directory...",
         Event.step 2 "Checking for download tools...",
         Event.info ("Using " ++ tool ++ " for download..."),
         Event.step 2 "Downloading repository..."]
          ++ streamEvents rdl
          ++ [Event.error "Download failed - archive file not found after download"] ∧
    errorCount
        (downloadAndRun env repoOwner repoName repoBranch hubBasePath).events
      = 1 := by
  unfold downloadAndRun stageDetect stageDownload
  simp only [hmk, hdet, hdl, hchk, catchStdout, hmissing]
  simp [isErrorEvent]

/-- Concrete environment for the C3 witness: the download tool probe and the
download command resolve with exit code 0, but the archive existence check
reports nothing. -/
def envMissingFile : Env := fun cmd =>
  if cmd == testFileCmd "/data/hub-setup/repo.tar.gz" then .ok ⟨"", "", 1⟩
  else .ok ⟨"/usr/bin/curl", "", 0⟩

/-- Witness for C3: a zero-exit download whose expected file is absent still
ends in exactly one `error` event, with the existence check issued right
after the download command. -/
theorem download_missing_file_fails_witness :
    errorCount (downloadAndRun envMissingFile "rahul-keus" "media-hub-setup"
        "main" "/data/hub-setup").events = 1 ∧
    (downloadAndRun envMissingFile "rahul-keus" "media-hub-setup" "main"
        "/data/hub-setup").cmds
      = [generateMkdirCommand "/data/hub-setup"] ++ ["which curl"]
          ++ [generateDownloadCommand
                (getBranchArchiveUrl "rahul-keus" "media-hub-setup" "main")
                (archivePathOf "/data/hub-setup") "curl",
              testFileCmd (archivePathOf "/data/hub-setup")] :=
  ⟨(download_missing_file_fails envMissingFile "rahul-keus" "media-hub-setup"
      "main" "/data/hub-setup" "curl" ["which curl"] ⟨"/usr/bin/curl", "", 0⟩
      ⟨"/usr/bin/curl", "", 0⟩ ⟨"", "", 1⟩ (by decide) (by decide) (by decide)
      (by decide) (by decide) (by decide)).2.2,
   (download_missing_file_fails envMissingFile "rahul-keus" "media-hub-setup"
      "main" "/data/hub-setup" "curl" ["which curl"] ⟨"/usr/bin/curl", "", 0⟩
      ⟨"/usr/bin/curl", "", 0⟩ ⟨"", "", 1⟩ (by decide) (by decide) (by decide)
      (by decide) (by decide) (by decide)).1⟩

/-- C6: when the extraction target holds no `package.json`, the pipeline
issues no install command — its complete command trace is exactly the mkdir,
tool probes, download, archive check, extraction, manifest probe, and the
setup-script run — emits the `info` skip event, and proceeds to the
`execute-setup-script` stage (its `step 5` event is emitted and its command
issued); the missing manifest by itself causes no failure. -/
theorem missing_manifest_skips_install (env : Env)
    (repoOwner repoName repoBranch hubBasePath tool : String)
    (probeCmds : List String) (rmk rdl rchk rex rpkg : CmdResult)
    (hmk : env (generateMkdirCommand hubBasePath) = .ok rmk)
    (hdet : detectDownloadTool env = (some tool, probeCmds))
    (hdl : env (generateDownloadCommand
        (getBranchArchiveUrl repoOwner repoName repoBranch)
        (archivePathOf hubBasePath) tool) = .ok rdl)
    (hchk : env (testFileCmd (archivePathOf hubBasePath)) = .ok rchk)
    (hfound : jsIncludes rchk.stdout "exists" = true)
    (hex : env (generateExtractCommand (archivePathOf hubBasePath) hubBasePath)
        = .ok rex)
    (hpkg : env (testFileCmd
        (extractedDirOf hubBasePath repoName repoBranch ++ "/package.json"))
      = .ok rpkg)
    (hnoman : jsIncludes rpkg.stdout "exists" = false) :
    (downloadAndRun env repoOwner repoName repoBranch hubBasePath).cmds
      = [generateMkdirCommand hubBasePath] ++ probeCmds
          ++ [generateDownloadCommand
                (getBranchArchiveUrl repoOwner repoName repoBranch)
                (archivePathOf hubBasePath) tool,
              testFileCmd (archivePathOf hubBasePath),
              generateExtractCommand (archivePathOf hubBasePath) hubBasePath,
              testFileCmd (extractedDirOf hubBasePath repoName repoBranch
                ++ "/package.json"),
              setupRunCmd (extractedDirOf hubBasePath repoName repoBranch)] ∧
    Event.info "No package.json found, skipping dependency installation"
      ∈ (downloadAndRun env repoOwner repoName repoBranch hubBasePath).events ∧
    Event.step 5 "Running hub-setup.js..."
      ∈ (downloadAndRun env repoOwner repoName repoBranch hubBasePath).events := by
  unfold downloadAndRun stageDetect stageDownload stageExtract stageInstall
    stageSetup
  simp only [hmk, hdet, hdl, hchk, hex, hpkg, catchStdout, hfound, hnoman]
  cases hrun : env (setupRunCmd (extractedDirOf hubBasePath repoName repoBranch)) <;>
    simp

/-- Concrete environment for the C6 witness: every command resolves with
stdout `exists` except the `package.json` probe, which reports nothing. -/
def envNoManifest : Env := fun cmd =>
  if cmd == testFileCmd "/data/hub-setup/media-hub-setup-main/package.json" then
    .ok ⟨"", "", 1⟩
  else
    .ok ⟨"exists", "", 0⟩

/-- Witness for C6: without a manifest the trace holds no `npm install`
command and the skip `info` event is emitted. -/
theorem missing_manifest_skips_install_witness :
    (downloadAndRun envNoManifest "rahul-keus" "media-hub-setup" "main"
        "/data/hub-setup").cmds
      = [generateMkdirCommand "/data/hub-setup"] ++ ["which curl"]
          ++ [generateDownloadCommand
                (getBranchArchiveUrl "rahul-keus" "media-hub-setup" "main")
                (archivePathOf "/data/hub-setup") "curl",
              testFileCmd (archivePathOf "/data/hub-setup"),
              generateExtractCommand (archivePathOf "/data/hub-setup")
                "/data/hub-setup",
              testFileCmd (extractedDirOf "/data/hub-setup" "media-hub-setup"
                "main" ++ "/package.json"),
              setupRunCmd (extractedDirOf "/data/hub-setup" "media-hub-setup"
                "main")] ∧
    Event.info "No package.json found, skipping dependency installation"
      ∈ (downloadAndRun envNoManifest "rahul-keus" "media-hub-setup" "main"
          "/data/hub-setup").events :=
  ⟨(missing_manifest_skips_install envNoManifest "rahul-keus" "media-hub-setup"
      "main" "/data/hub-setup" "curl" ["which curl"] ⟨"exists", "", 0⟩
      ⟨"exists", "", 0⟩ ⟨"exists", "", 0⟩ ⟨"exists", "", 0⟩ ⟨"", "", 1⟩
      (by decide) (by decide) (by decide) (by decide) (by decide) (by decide)
      (by decide) (by decide)).1,
   (missing_manifest_skips_install envNoManifest "rahul-keus" "media-hub-setup"
      "main" "/data/hub-setup" "curl" ["which curl"] ⟨"exists", "", 0⟩
      ⟨"exists", "", 0⟩ ⟨"exists", "", 0⟩ ⟨"exists", "", 0⟩ ⟨"", "", 1⟩
      (by decide) (by decide) (by decide) (by decide) (by decide) (by decide)
      (by decide) (by decide)).2.1⟩

/-! ## Terminal events end the stream (C7) -/

/-- Whether an event is terminal (`success`, `error` or `done`): the route
ends the SSE stream right after writing such an event. -/
def isTerminal : Event → Bool
  | .success _ => true
  | .error _ => true
  | .done _ => true
  | _ => false

/-- A non-empty event sequence all of whose events before the last are
non-terminal and whose last event is terminal: equivalently, no event ever
follows a terminal event, and the sequence ends with one. -/
def terminalOnlyLast : List Event → Bool
  | [] => false
  | [e] => isTerminal e
  | e :: f :: rest => !isTerminal e && terminalOnlyLast (f :: rest)

lemma streamEvents_nonTerminal (r : CmdResult) :
    ∀ e ∈ streamEvents r, isTerminal e = false := by
  intro e he
  unfold streamEvents at he
  rcases List.mem_append.mp he with h | h <;>
    (split at h <;> simp_all [isTerminal])

lemma nonTerminal_append {l1 l2 : List Event}
    (h1 : ∀ e ∈ l1, isTerminal e = false)
    (h2 : ∀ e ∈ l2, isTerminal e = false) :
    ∀ e ∈ l1 ++ l2, isTerminal e = false := by
  intro e he
  rcases List.mem_append.mp he with h | h
  · exact h1 e h
  · exact h2 e h

lemma terminalOnlyLast_append (l1 l2 : List Event)
    (h1 : ∀ e ∈ l1, isTerminal e = false) (h2 : terminalOnlyLast l2 = true) :
    terminalOnlyLast (l1 ++ l2) = true := by
  induction l1 with
  | nil => simpa using h2
  | cons a l ih =>
    have ha := h1 a (List.mem_cons_self a l)
    have ih2 := ih (fun e he => h1 e (List.mem_cons_of_mem a he))
    rw [List.cons_append]
    cases hl : l ++ l2 with
    | nil =>
      rw [hl] at ih2
      simp [terminalOnlyLast] at ih2
    | cons b rest =>
      rw [hl] at ih2
      simp [terminalOnlyLast, ha, ih2]

lemma stageSetup_terminal (env : Env) (dir : String) (acc : RunResult)
    (h : ∀ e ∈ acc.events, isTerminal e = false) :
    terminalOnlyLast (stageSetup env dir acc).events = true := by
  unfold stageSetup
  cases henv : env (setupRunCmd dir) with
  | error e =>
    exact terminalOnlyLast_append _ _
      (nonTerminal_append h (by simp [isTerminal])) rfl
  | ok r =>
    exact terminalOnlyLast_append _ _
      (nonTerminal_append
        (nonTerminal_append h (by simp [isTerminal]))
        (streamEvents_nonTerminal r)) rfl

lemma stageInstall_terminal (env : Env) (dir : String) (acc : RunResult)
    (h : ∀ e ∈ acc.events, isTerminal e = false) :
    terminalOnlyLast (stageInstall env dir acc).events = true := by
  unfold stageInstall
  split
  · cases henv : env (npmInstallCmd dir) with
    | error e =>
      exact terminalOnlyLast_append _ _
        (nonTerminal_append h (by simp [isTerminal])) rfl
    | ok r =>
      refine stageSetup_terminal env dir _ ?_
      exact nonTerminal_append
        (nonTerminal_append
          (nonTerminal_append h (by simp [isTerminal]))
          (streamEvents_nonTerminal r))
        (by simp [isTerminal])
  · refine stageSetup_terminal env dir _ ?_
    exact nonTerminal_append h (by simp [isTerminal])

lemma stageExtract_terminal (env : Env)
    (repoName repoBranch hubBasePath : String) (acc : RunResult)
    (h : ∀ e ∈ acc.events, isTerminal e = false) :
    terminalOnlyLast
      (stageExtract env repoName repoBranch hubBasePath acc).events = true := by
  unfold stageExtract
  cases henv :
      env (generateExtractCommand (archivePathOf hubBasePath) hubBasePath) with
  | error e =>
    exact terminalOnlyLast_append _ _
      (nonTerminal_append h (by simp [isTerminal])) rfl
  | ok r =>
    refine stageInstall_terminal env _ _ ?_
    exact nonTerminal_append
      (nonTerminal_append h (by simp [isTerminal]))
      (streamEvents_nonTerminal r)

lemma stageDownload_terminal (env : Env)
    (tool repoOwner repoName repoBranch hubBasePath : String)
    (acc : RunResult) (h : ∀ e ∈ acc.events, isTerminal e = false) :
    terminalOnlyLast
      (stageDownload env tool repoOwner repoName repoBranch hubBasePath
        acc).events = true := by
  unfold stageDownload
  cases henv : env (generateDownloadCommand
      (getBranchArchiveUrl repoOwner repoName repoBranch)
      (archivePathOf hubBasePath) tool) with
  | error e =>
    exact terminalOnlyLast_append _ _
      (nonTerminal_append h (by simp [isTerminal])) rfl
  | ok r =>
    dsimp only
    split
    · refine stageExtract_terminal env _ _ _ _ ?_
      exact nonTerminal_append
        (nonTerminal_append h (by simp [isTerminal]))
        (streamEvents_nonTerminal r)
    · exact terminalOnlyLast_append _ _
        (nonTerminal_append
          (nonTerminal_append h (by simp [isTerminal]))
          (streamEvents_nonTerminal r)) rfl

lemma stageDetect_terminal (env : Env)
    (repoOwner repoName repoBranch hubBasePath : String) (acc : RunResult)
    (h : ∀ e ∈ acc.events, isTerminal e = false) :
    terminalOnlyLast
      (stageDetect env repoOwner repoName repoBranch hubBasePath acc).events
      = true := by
  unfold stageDetect
  rcases hdet : detectDownloadTool env with ⟨toolOpt, probeCmds⟩
  cases toolOpt with
  | none =>
    exact terminalOnlyLast_append _ _
      (nonTerminal_append h (by simp [isTerminal])) rfl
  | some tool =>
    refine stageDownload_terminal env _ _ _ _ _ _ ?_
    exact nonTerminal_append h (by simp [isTerminal])

/-- C7: for every pipeline run the event sequence ends with exactly one
terminal event (`success`, `error` or `done`) and no event ever follows a
terminal event — this for the one-click setup pipeline and for the
`execute-stream` route alike. -/
theorem terminal_event_is_last (env : Env)
    (repoOwner repoName repoBranch hubBasePath command : String) :
    terminalOnlyLast
        (downloadAndRun env repoOwner repoName repoBranch hubBasePath).events
      = true ∧
    terminalOnlyLast (executeStreamRoute env command) = true := by
  constructor
  · unfold downloadAndRun
    cases hmk : env (generateMkdirCommand hubBasePath) with
    | error e => rfl
    | ok r =>
      refine stageDetect_terminal env _ _ _ _ _ ?_
      simp [isTerminal]
  · unfold executeStreamRoute
    cases hcmd : env command with
    | ok r =>
      have : Event.connected "Connected to hub"
            :: (streamEvents r ++ [Event.done "Command completed"])
          = (Event.connected "Connected to hub" :: streamEvents r)
            ++ [Event.done "Command completed"] := by
        simp
      rw [this]
      refine terminalOnlyLast_append _ _ ?_ rfl
      intro e he
      rcases List.mem_cons.mp he with h | h
      · subst h
        rfl
      · exact streamEvents_nonTerminal r e h
    | error e => rfl
